import Mathlib

/-!
Verification of the authentication service of the unified dashboard and
external-inference client (files `auth/unified_auth.py`,
`ai/unified_ai_assistant.py`, `config/unified_config.py`), as a shallow
embedding: Python strings become `List Char`, the external SHA-256 /
bcrypt / JSON / HTTP collaborators become explicit function parameters,
per-session state becomes an explicit record threaded through the
functions, and wall-clock instants become natural numbers of seconds.
-/

namespace Dash

/-- Python `str` values are modelled as lists of characters. -/
abbrev Str := List Char

/-- Python `stored_hash.split` at the first dollar separator, under the
assumption that the separator occurs (the branch using it has already
checked that a dollar occurs in the stored hash): the part before the
first occurrence of `c` and the part after it. -/
def splitOnce (c : Char) : Str → Str × Str
  | [] => ([], [])
  | x :: xs =>
    if x = c then ([], xs)
    else
      let p := splitOnce c xs
      (x :: p.1, p.2)

/-! ## Authentication service: password hashing and verification
(`auth/unified_auth.py`, `UnifiedAuthSystem`).

`hashlib.sha256(...).hexdigest()` is an external primitive; it is passed
in as a function `sha : Str → Str` (its real output is always 64 hex
characters, assumed where needed).  `bcrypt.checkpw` is likewise passed
in as `bc : Str → Str → Bool` taking the password and the stored hash. -/

/-- Models `UnifiedAuthSystem.hash_password`, with the randomly drawn
`secrets.token_hex(16)` salt made an explicit argument:
returns `f"{salt}${password_hash}"` where
`password_hash = sha256(password + salt)`. -/
def hash_password (sha : Str → Str) (salt password : Str) : Str :=
  salt ++ '$' :: sha (password ++ salt)

/-- Models `UnifiedAuthSystem.verify_password`: multi-format password check.
The four stored-hash formats are dispatched in the source order:
bcrypt marker, plaintext equality, `salt$digest`, bare 64-char digest,
then a direct-comparison fallback.  (The `try/except` wrapper of the
source can only fire inside the external bcrypt call, which is modelled
as the total function `bc`.) -/
def verify_password (sha : Str → Str) (bc : Str → Str → Bool)
    (password stored_hash : Str) : Bool :=
  if ['$', '2', 'b', '$'].isPrefixOf stored_hash then
    bc password stored_hash
  else if stored_hash = password then
    true
  else if '$' ∈ stored_hash ∧ stored_hash.length > 50 then
    let p := splitOnce '$' stored_hash
    sha (password ++ p.1) = p.2
  else if stored_hash.length = 64 then
    sha password = stored_hash
  else
    password = stored_hash

/-- Specification description of `verify_password` (§4.1, rules a–e),
written from the words of the spec, for comparison against the code
function. -/
def verifyPasswordDescribed (sha : Str → Str) (bc : Str → Str → Bool)
    (password stored_hash : Str) : Bool :=
  -- (a) adaptive hash starting with the known marker
  if ['$', '2', 'b', '$'].isPrefixOf stored_hash then
    bc password stored_hash
  -- (b) exact string equality escape hatch
  else if stored_hash = password then
    true
  -- (c) salted digest `salt$digest`, full length exceeding 50
  else if '$' ∈ stored_hash ∧ stored_hash.length > 50 then
    let p := splitOnce '$' stored_hash
    sha (password ++ p.1) = p.2
  -- (d) bare 64-character digest
  else if stored_hash.length = 64 then
    sha password = stored_hash
  -- (e) direct string equality fallback
  else
    password = stored_hash

/-- Auxiliary: a character of a hexadecimal digest. -/
def hexChar (c : Char) : Prop := c ∈ ("0123456789abcdef".toList)

instance (c : Char) : Decidable (hexChar c) := by
  unfold hexChar; infer_instance

theorem hexChar_ne_dollar {c : Char} (h : hexChar c) : c ≠ '$' := by
  intro hc
  subst hc
  revert h
  decide

/-! ## Configuration (`config/unified_config.py`, `_init_auth_config`). -/

/-- The `auth_config` dictionary built by
`UnifiedConfig._init_auth_config` (fixed literal values, no environment
input). -/
structure AuthConfig where
  cookie_name : Str
  cookie_key : Str
  cookie_expiry_days : Nat
  session_timeout : Nat
  max_login_attempts : Nat
  password_min_length : Nat
  preauthorized : List Str

/-- The literal `auth_config` value of `_init_auth_config`. -/
def defaultAuthConfig : AuthConfig :=
  { cookie_name := ("unified_dashboard_auth".toList)
  , cookie_key := ("unified_dashboard_key".toList)
  , cookie_expiry_days := 30
  , session_timeout := 3600
  , max_login_attempts := 3
  , password_min_length := 12
  , preauthorized := [("admin@unified.com".toList)] }

/-! ## Rate limiting and authentication (`auth/unified_auth.py`).

Streamlit session state becomes an explicit record; `datetime.now()`
becomes a `now : Nat` argument (seconds); `timedelta(minutes=15)` is the
source literal, i.e. 900 seconds.  The three Supabase user stores
become a function from tenant and username to a query outcome. -/

/-- The three tenant projects, in the fixed dictionary order of
`self.db_managers`. -/
inductive Tenant where
  | lead
  | cpa
  | prop
deriving DecidableEq, Repr

/-- The fixed iteration order of `self.db_managers.items()`. -/
def tenantOrder : List Tenant := [.lead, .cpa, .prop]

/-- A user row as returned by the table `users` of a tenant store; fields
read through `dict.get` (absent keys yield `None`) are `Option`s, the
matched `username` is concrete. -/
structure User where
  id : Option Nat
  username : Str
  password_hash : Option Str
  email : Option Str
  first_name : Option Str
  last_name : Option Str
  role : Option Str
deriving DecidableEq

/-- Outcome of one tenant store query
`supabase.table(users).select(all).eq(username, u).execute()`:
either the call raised, or it returned a (possibly empty) row list. -/
inductive StoreResult where
  | err
  | rows (rs : List User)
deriving DecidableEq

/-- A store outcome that does not produce a user row: an empty result
set or a raised lookup error (the latter is swallowed by the source
inner `try/except`). -/
def StoreResult.noMatch : StoreResult → Prop
  | .err => True
  | .rows rs => rs = []

instance (r : StoreResult) : Decidable r.noMatch := by
  cases r <;> unfold StoreResult.noMatch <;> infer_instance

/-- The session identity written by `_set_user_session`. -/
structure UserInfo where
  id : Option Nat
  username : Str
  email : Option Str
  first_name : Option Str
  last_name : Option Str
  role : Option Str
  project_type : Tenant
  login_time : Nat
deriving DecidableEq

/-- The slice of `st.session_state` used by `UnifiedAuthSystem`. -/
structure AuthState where
  authenticated : Bool
  user_info : Option UserInfo
  login_attempts : Nat
  last_login_attempt : Option Nat
  current_project : Tenant
deriving DecidableEq

/-- Models `_init_session_state`: the state of a fresh session. -/
def initAuthState : AuthState :=
  { authenticated := false
  , user_info := none
  , login_attempts := 0
  , last_login_attempt := none
  , current_project := .lead }

/-- Models `UnifiedAuthSystem.check_rate_limit`: allows the attempt unless the
failure counter has reached `max_login_attempts` and the last recorded
failure is less than 15 minutes (the literal `timedelta(minutes=15)`,
here 900 seconds) in the past. -/
def check_rate_limit (cfg : AuthConfig) (login_attempts : Nat)
    (last_login_attempt : Option Nat) (now : Nat) : Bool :=
  if login_attempts ≥ cfg.max_login_attempts then
    match last_login_attempt with
    | some t => if now - t < 900 then false else true
    | none => true
  else
    true

/-- Models `_increment_login_attempts`. -/
def incrementAttempts (st : AuthState) (now : Nat) : AuthState :=
  { st with login_attempts := st.login_attempts + 1
          , last_login_attempt := some now }

/-- Models `_reset_login_attempts`. -/
def resetAttempts (st : AuthState) : AuthState :=
  { st with login_attempts := 0, last_login_attempt := none }

/-- Models `_set_user_session`. -/
def set_user_session (st : AuthState) (u : User) (project_type : Tenant)
    (now : Nat) : AuthState :=
  { st with
    authenticated := true
  , user_info := some
      { id := u.id
      , username := u.username
      , email := u.email
      , first_name := u.first_name
      , last_name := u.last_name
      , role := u.role
      , project_type := project_type
      , login_time := now }
  , current_project := project_type }

/-- The four distinct user-facing messages `authenticate_user` can
return (lockout, unknown user, wrong password, and the welcome
greeting with the user display name). -/
inductive AuthMsg where
  | lockout
  | userNotFound
  | wrongPassword
  | welcome (name : Str)
deriving DecidableEq

/-- Result of one `authenticate_user` call; `queried` records, in
order, the tenant stores whose lookup was actually executed. -/
structure AuthOutcome where
  ok : Bool
  msg : AuthMsg
  user : Option User
  queried : List Tenant
deriving DecidableEq

/-- Models `if response.data: user_data = response.data[0]` — the first row of
a truthy (non-empty, non-raised) store response. -/
def storeFirstRow : StoreResult → Option User
  | .rows (u :: _) => some u
  | _ => none

/-- The user-search loop of `authenticate_user`: walk the stores in
`tenantOrder`, skip a store whose lookup raised or matched no row,
stop at the first store returning at least one row (taking `data[0]`).
Also returns the list of stores queried. -/
def searchStores (stores : Tenant → Str → StoreResult) (username : Str) :
    List Tenant → Option (User × Tenant) × List Tenant
  | [] => (none, [])
  | t :: ts =>
    match storeFirstRow (stores t username) with
    | some u => (some (u, t), [t])
    | none =>
      let p := searchStores stores username ts
      (p.1, t :: p.2)

/-- Models `UnifiedAuthSystem.authenticate_user`: rate-limit gate, sequential
tenant search, password verification, then session stamping.  The
result and the updated session state are returned together. -/
def authenticate_user (cfg : AuthConfig)
    (stores : Tenant → Str → StoreResult)
    (sha : Str → Str) (bc : Str → Str → Bool)
    (username password : Str) (st : AuthState) (now : Nat) :
    AuthOutcome × AuthState :=
  if ¬ check_rate_limit cfg st.login_attempts st.last_login_attempt now then
    ({ ok := false, msg := .lockout, user := none, queried := [] }, st)
  else
    match searchStores stores username tenantOrder with
    | (none, q) =>
      ({ ok := false, msg := .userNotFound, user := none, queried := q },
       incrementAttempts st now)
    | (some (u, t), q) =>
      if verify_password sha bc password (u.password_hash.getD []) then
        ({ ok := true, msg := .welcome (u.first_name.getD username)
         , user := some u, queried := q },
         set_user_session (resetAttempts st) u t now)
      else
        ({ ok := false, msg := .wrongPassword, user := none, queried := q },
         incrementAttempts st now)

/-! ## External inference client (`ai/unified_ai_assistant.py`).

`requests.post` plus response decoding is a single external effect; one
invocation outcome is passed in as `net : Option Str` (`some text`
when the HTTP status was 200 and `choices[0].message.content` was
extracted, `none` for any failure — the source catches every exception
and returns `None`).  The Python `hash(str(messages))` is passed in as a
function, and `json.loads` as a `parse` function. -/

/-- A JSON-like value, for the structures the assistant builds. -/
inductive JVal where
  | str (s : Str)
  | num (q : ℚ)
  | arr (xs : List JVal)
  | obj (fields : List (Str × JVal))
  | null

/-- Dictionary lookup in an association-list object. -/
def getKey (fields : List (Str × JVal)) (k : Str) : Option JVal :=
  match fields.find? (fun f => f.1 = k) with
  | some f => some f.2
  | none => none

/-- Python `d[k] = v`: replace the value of an existing key, otherwise
append the new pair. -/
def setKey (fields : List (Str × JVal)) (k : Str) (v : JVal) :
    List (Str × JVal) :=
  if (fields.find? (fun f => f.1 = k)).isSome then
    fields.map (fun f => if f.1 = k then (k, v) else f)
  else
    fields ++ [(k, v)]

/-- One chat message (`role`, `content`). -/
structure Message where
  role : Str
  content : Str
deriving DecidableEq

/-- The in-memory response cache `self.cache`, a Python dict modelled
as a finite map: cache-key to (store-time, response text). -/
abbrev Cache := (Str × Int) → Option (Nat × Str)

/-- Cache lookup (`if cache_key in self.cache: ... = self.cache[cache_key]`). -/
def cacheGet (c : Cache) (k : Str × Int) : Option (Nat × Str) := c k

/-- Cache store (`self.cache[cache_key] = (datetime.now(), response)`). -/
def cacheSet (c : Cache) (k : Str × Int) (v : Nat × Str) : Cache :=
  fun k' => if k' = k then some v else c k'

/-- The cache key `f"{project_type}_{hash(str(messages))}"` of
`_make_api_call`, with the Python `hash(str(messages))` abstracted as
`hashF`. -/
def cacheKey (hashF : List Message → Int) (project_type : Str)
    (messages : List Message) : Str × Int :=
  (project_type, hashF messages)

/-- Result of one `_make_api_call` invocation: the returned text (or
`none`), the updated cache, and whether the HTTP request was actually
issued. -/
structure ApiCallResult where
  response : Option Str
  cache : Cache
  networkCalled : Bool

/-- Models `UnifiedAIAssistant._make_api_call`: serve from the cache when an
entry for the key exists and is younger than `self.cache_timeout`
(the literal 300 seconds); otherwise issue the HTTP request, caching
the text on success and returning `none` on any failure. -/
def make_api_call (hashF : List Message → Int) (net : Option Str)
    (cache : Cache) (messages : List Message) (project_type : Str)
    (now : Nat) : ApiCallResult :=
  let key := cacheKey hashF project_type messages
  match cacheGet cache key with
  | some (cached_time, response) =>
    if now - cached_time < 300 then
      { response := some response, cache := cache, networkCalled := false }
    else
      match net with
      | some text =>
        { response := some text
        , cache := cacheSet cache key (now, text)
        , networkCalled := true }
      | none =>
        { response := none, cache := cache, networkCalled := true }
  | none =>
    match net with
    | some text =>
      { response := some text
      , cache := cacheSet cache key (now, text)
      , networkCalled := true }
    | none =>
      { response := none, cache := cache, networkCalled := true }

/-! ### Domain callers: wrap / fallback logic.

Each caller first computes a local summary object, then calls the API
and post-processes.  The summary computations walk pandas frames; the
post-processing (source lines around each caller
`if ai_response: ... else: ...`) is embedded here with the already
computed summary object as an argument, since the callers treat it
as a black box from that point on.  `json.loads` is abstracted as a `parse`
argument: `objRes` for a JSON object, `nonObj` for other valid JSON
(on which the subsequent item assignment raises, landing in the
caller outer `except`), `failure` for `json.JSONDecodeError`. -/

/-- Outcome of `json.loads(ai_response)` as used by the callers. -/
inductive ParseRes where
  | objRes (fields : List (Str × JVal))
  | nonObj (errText : Str)
  | failure

/-- Models `_fallback_lead_analysis` (minus its unused dataframe argument). -/
def fallback_lead_analysis (summary : JVal) (ts : Str) :
    List (Str × JVal) :=
  [ (("analysis".toList),
      .str ("Analisi base completata (AI non disponibile)".toList))
  , (("data_summary".toList), summary)
  , (("recommendations".toList),
      .arr [ .str ("Migliorare conversion rate".toList)
           , .str ("Ottimizzare fonti lead".toList) ])
  , (("timestamp".toList), .str ts) ]

/-- Models `_fallback_cpa_analysis` (minus its unused dataframe argument). -/
def fallback_cpa_analysis (metrics : JVal) (ts : Str) :
    List (Str × JVal) :=
  [ (("roi_analysis".toList), .str ("Analisi ROI base completata".toList))
  , (("basic_metrics".toList), metrics)
  , (("recommendations".toList),
      .arr [ .str ("Ottimizzare budget".toList)
           , .str ("Migliorare ROI".toList) ])
  , (("timestamp".toList), .str ts) ]

/-- Models `_fallback_broker_analysis` (minus its unused dataframe argument). -/
def fallback_broker_analysis (analysis : JVal) (ts : Str) :
    List (Str × JVal) :=
  [ (("broker_rankings".toList), .str ("Ranking base completato".toList))
  , (("basic_analysis".toList), analysis)
  , (("recommendations".toList),
      .arr [ .str ("Diversificare broker".toList)
           , .str ("Monitorare performance".toList) ])
  , (("timestamp".toList), .str ts) ]

/-- The shared post-processing shape of the three domain callers,
parametrised by the key the parsed/raw cases use for the local summary,
the key the raw-text case uses for the response, and the caller
fallback builder.  Mirrors e.g. `analyze_lead_data` lines
`if ai_response: try ... except json.JSONDecodeError ... else:
return self._fallback_...`. -/
def postProcess (summaryKey rawKey : Str)
    (fallback : JVal → Str → List (Str × JVal))
    (parse : Str → ParseRes) (ai_response : Option Str)
    (summary : JVal) (ts : Str) : List (Str × JVal) :=
  match ai_response with
  | some resp =>
    match parse resp with
    | .objRes fields =>
      setKey (setKey fields summaryKey summary) ("timestamp".toList) (.str ts)
    | .nonObj errText =>
      -- item assignment on a non-dict raises; the outer `except`
      -- returns `{"error": str(e), "timestamp": ...}`
      [ (("error".toList), .str errText)
      , (("timestamp".toList), .str ts) ]
    | .failure =>
      [ (rawKey, .str resp)
      , (summaryKey, summary)
      , (("timestamp".toList), .str ts) ]
  | none => fallback summary ts

/-- Models `analyze_lead_data`, from the `ai_response` decision point on. -/
def analyze_lead_data (parse : Str → ParseRes) (ai_response : Option Str)
    (data_summary : JVal) (ts : Str) : List (Str × JVal) :=
  postProcess ("data_summary".toList) ("analysis".toList)
    fallback_lead_analysis parse ai_response data_summary ts

/-- Models `calculate_cpa_metrics`, from the `ai_response` decision point on. -/
def calculate_cpa_metrics (parse : Str → ParseRes) (ai_response : Option Str)
    (metrics : JVal) (ts : Str) : List (Str × JVal) :=
  postProcess ("basic_metrics".toList) ("advanced_analysis".toList)
    fallback_cpa_analysis parse ai_response metrics ts

/-- Models `analyze_broker_performance`, from the `ai_response` decision point
on. -/
def analyze_broker_performance (parse : Str → ParseRes)
    (ai_response : Option Str) (analysis : JVal) (ts : Str) :
    List (Str × JVal) :=
  postProcess ("basic_analysis".toList) ("advanced_analysis".toList)
    fallback_broker_analysis parse ai_response analysis ts

/-! ## Local statistics (`_calculate_conversion_rate`).

A pandas frame is embedded as its column list plus one association list
per row; Python float arithmetic on these small integer counts is
carried out in `ℚ` (the concrete scenario value 37.0 is exact in IEEE
doubles as well). -/

/-- The slice of a pandas `DataFrame` the statistic reads. -/
structure DataFrame where
  cols : List Str
  rows : List (List (Str × Str))
deriving DecidableEq

/-- Value of one row in a column (Python `row[stato]`). -/
def rowGet (row : List (Str × Str)) (c : Str) : Option Str :=
  match row.find? (fun f => f.1 = c) with
  | some f => some f.2
  | none => none

/-- Models `UnifiedAIAssistant._calculate_conversion_rate`:
the converted-row count over the row count, times 100, when the
column exists and the frame is non-empty, else 0. -/
def calculate_conversion_rate (data : DataFrame) : ℚ :=
  if ("stato".toList) ∈ data.cols then
    let converted :=
      (data.rows.filter
        (fun r => rowGet r ("stato".toList) = some ("converted".toList))).length
    let total := data.rows.length
    if total > 0 then (converted : ℚ) / (total : ℚ) * 100 else 0
  else
    0

/-! ## Claims -/

/-- C1: `verify_password` tries the four supported encodings in the
fixed precedence order of the spec (bcrypt marker, plaintext equality,
`salt$digest` with length over 50, bare 64-character digest, direct
equality fallback); in particular a 64-character hex `stored_hash` that
is neither the SHA-256 digest of the password nor equal to the password
is decided (false) by the bare-digest rule, never accepted by the final
equality fallback. -/
theorem C1_verify_password_precedence
    (sha : Str → Str) (bc : Str → Str → Bool) :
    (∀ password stored_hash,
      verify_password sha bc password stored_hash =
        verifyPasswordDescribed sha bc password stored_hash) ∧
    (∀ password stored_hash,
      stored_hash.length = 64 →
      (∀ c ∈ stored_hash, hexChar c) →
      stored_hash ≠ sha password →
      stored_hash ≠ password →
      verify_password sha bc password stored_hash = false) := by
  constructor
  · intro password stored_hash
    rfl
  · intro password sh hlen hhex hsha hpl
    have hnd : '$' ∉ sh := fun hmem => hexChar_ne_dollar (hhex _ hmem) rfl
    cases sh with
    | nil => simp at hlen
    | cons c rest =>
      have hc : c ≠ '$' :=
        hexChar_ne_dollar (hhex c (List.mem_cons_self c rest))
      have hpre : (['$', '2', 'b', '$'].isPrefixOf (c :: rest)) = false := by
        simp [List.isPrefixOf]
        intro h
        exact absurd h.symm hc
      unfold verify_password
      rw [hpre]
      simp only [Bool.false_eq_true, if_false]
      rw [if_neg hpl, if_neg (fun h => hnd h.1), if_pos hlen]
      simp only [decide_eq_false_iff_not]
      exact fun h => hsha h.symm

/-- C1 witness: a concrete 64-character value that is hex, differs from
the digest of the password and from the password itself, is rejected. -/
theorem C1_witness :
    verify_password (fun _ => List.replicate 64 'a') (fun _ _ => false)
      ("wrong".toList) (List.replicate 64 'b') = false :=
  (C1_verify_password_precedence (fun _ => List.replicate 64 'a')
    (fun _ _ => false)).2 ("wrong".toList) (List.replicate 64 'b')
    (by decide) (by decide) (by decide) (by decide)

/-- Splitting at the first separator occurrence, when the part before
it is separator-free, recovers the two parts (Python
a `salt$digest` value split at its first dollar). -/
theorem splitOnce_append (c : Char) (l₁ l₂ : Str) (h : c ∉ l₁) :
    splitOnce c (l₁ ++ c :: l₂) = (l₁, l₂) := by
  induction l₁ with
  | nil => simp [splitOnce]
  | cons x xs ih =>
    simp only [List.cons_append, splitOnce, List.append_eq]
    rw [if_neg ?hx]
    · rw [ih (fun hm => h (List.mem_cons_of_mem x hm))]
    · intro hx
      subst hx
      exact h (List.mem_cons_self x xs)

/-- C10: round trip of hashing and verification — for every password
and every salt of the shape `token_hex(16)` produces (32 hex
characters), the stored string `salt$digest` is 97 characters, never
carries the bcrypt marker, and `verify_password` accepts the original
password against it. -/
theorem C10_hash_password_roundtrip
    (sha : Str → Str) (bc : Str → Str → Bool) (salt password : Str)
    (hlen : salt.length = 32)
    (hhex : ∀ c ∈ salt, hexChar c)
    (hsha : ∀ s, (sha s).length = 64) :
    verify_password sha bc password (hash_password sha salt password) = true ∧
    (hash_password sha salt password).length = 97 ∧
    (['$', '2', 'b', '$'].isPrefixOf (hash_password sha salt password))
      = false := by
  have hnd : '$' ∉ salt := fun hmem => hexChar_ne_dollar (hhex _ hmem) rfl
  have hlength : (hash_password sha salt password).length = 97 := by
    simp only [hash_password, List.length_append, List.length_cons, hlen,
      hsha]
  have hpre : (['$', '2', 'b', '$'].isPrefixOf (hash_password sha salt password))
      = false := by
    cases hsalt : salt with
    | nil => rw [hsalt] at hlen; simp at hlen
    | cons c rest =>
      have hc : c ≠ '$' := by
        refine hexChar_ne_dollar (hhex c ?_)
        rw [hsalt]
        exact List.mem_cons_self c rest
      simp only [hash_password, hsalt, List.cons_append, List.isPrefixOf]
      simp
      intro h
      exact absurd h.symm hc
  refine ⟨?_, hlength, hpre⟩
  by_cases heq : hash_password sha salt password = password
  · unfold verify_password
    rw [hpre]
    simp only [Bool.false_eq_true, if_false]
    rw [if_pos heq]
  · have hcond : '$' ∈ hash_password sha salt password ∧
        (hash_password sha salt password).length > 50 := by
      constructor
      · simp [hash_password]
      · rw [hlength]
        decide
    unfold verify_password
    rw [hpre]
    simp only [Bool.false_eq_true, if_false]
    rw [if_neg heq, if_pos hcond]
    show (decide (sha (password ++ (splitOnce '$' (hash_password sha salt password)).1)
        = (splitOnce '$' (hash_password sha salt password)).2)) = true
    rw [show hash_password sha salt password
        = salt ++ '$' :: sha (password ++ salt) from rfl]
    rw [splitOnce_append '$' salt (sha (password ++ salt)) hnd]
    simp

/-- C10 witness: concrete salt, password and digest function. -/
theorem C10_witness :
    verify_password (fun _ => List.replicate 64 'a') (fun _ _ => false)
      ("pw".toList)
      (hash_password (fun _ => List.replicate 64 'a')
        (List.replicate 32 '0') ("pw".toList)) = true :=
  (C10_hash_password_roundtrip (fun _ => List.replicate 64 'a')
    (fun _ _ => false) (List.replicate 32 '0') ("pw".toList)
    (by decide) (by decide) (fun _ => by simp)).1

/-- C3: with a fixed clock and configured maximum N, `check_rate_limit`
allows while the consecutive-failure counter is below N, denies once it
has reached N and less than 15 minutes (900 s) have passed since the
last recorded failure, and allows again as soon as the window has
elapsed; while it denies, `authenticate_user` returns the lockout
failure unchanged-state and queries no tenant store. -/
theorem C3_rate_limit_behaviour :
    (∀ (cfg : AuthConfig) (k : Nat) (l : Option Nat) (now : Nat),
      k < cfg.max_login_attempts →
      check_rate_limit cfg k l now = true) ∧
    (∀ (cfg : AuthConfig) (k t now : Nat),
      cfg.max_login_attempts ≤ k →
      now - t < 900 →
      check_rate_limit cfg k (some t) now = false) ∧
    (∀ (cfg : AuthConfig) (k t now : Nat),
      cfg.max_login_attempts ≤ k →
      900 ≤ now - t →
      check_rate_limit cfg k (some t) now = true) ∧
    (∀ (cfg : AuthConfig) (stores : Tenant → Str → StoreResult)
       (sha : Str → Str) (bc : Str → Str → Bool)
       (username password : Str) (st : AuthState) (now : Nat),
      check_rate_limit cfg st.login_attempts st.last_login_attempt now
        = false →
      authenticate_user cfg stores sha bc username password st now =
        ({ ok := false, msg := .lockout, user := none, queried := [] },
         st)) := by
  refine ⟨?_, ?_, ?_, ?_⟩
  · intro cfg k l now hk
    unfold check_rate_limit
    rw [if_neg (by omega)]
  · intro cfg k t now hk hw
    unfold check_rate_limit
    rw [if_pos hk]
    simp only [if_pos hw]
  · intro cfg k t now hk hw
    unfold check_rate_limit
    rw [if_pos hk]
    simp only [if_neg (by omega : ¬ now - t < 900)]
  · intro cfg stores sha bc username password st now hdeny
    unfold authenticate_user
    rw [hdeny]
    simp

/-- C3 witness: with the default configuration (N = 3) the limiter
allows at counter 2, denies at counter 3 one second into the window,
still denies at 899 seconds, allows again at exactly 900 seconds, and
a denied state short-circuits `authenticate_user`. -/
theorem C3_witness :
    check_rate_limit defaultAuthConfig 2 (some 0) 1 = true ∧
    check_rate_limit defaultAuthConfig 3 (some 0) 1 = false ∧
    check_rate_limit defaultAuthConfig 3 (some 0) 899 = false ∧
    check_rate_limit defaultAuthConfig 3 (some 0) 900 = true ∧
    authenticate_user defaultAuthConfig (fun _ _ => .rows [])
      (fun s => s) (fun _ _ => true) ("u".toList) ("p".toList)
      { initAuthState with login_attempts := 3, last_login_attempt := some 0 }
      1 =
      ({ ok := false, msg := .lockout, user := none, queried := [] },
       { initAuthState with login_attempts := 3, last_login_attempt := some 0 }) :=
  ⟨C3_rate_limit_behaviour.1 defaultAuthConfig 2 (some 0) 1 (by decide),
   C3_rate_limit_behaviour.2.1 defaultAuthConfig 3 0 1 (by decide)
     (by decide),
   C3_rate_limit_behaviour.2.1 defaultAuthConfig 3 0 899 (by decide)
     (by decide),
   C3_rate_limit_behaviour.2.2.1 defaultAuthConfig 3 0 900 (by decide)
     (by decide),
   C3_rate_limit_behaviour.2.2.2 defaultAuthConfig (fun _ _ => .rows [])
     (fun s => s) (fun _ _ => true) ("u".toList) ("p".toList)
     { initAuthState with login_attempts := 3, last_login_attempt := some 0 }
     1 (by decide)⟩

/-- C6 counterexample: the lockout window is not configuration-driven.
Two configurations that differ in every field except
`max_login_attempts` (one with all time-like settings set to one
second/day) behave identically and both still deny 600 seconds after
the last failure: no configuration value supplies the 15-minute
window, which is the hardcoded `timedelta(minutes=15)`. -/
theorem C6_counterexample :
    check_rate_limit defaultAuthConfig 3 (some 0) 600 = false ∧
    check_rate_limit
      { cookie_name := [], cookie_key := [], cookie_expiry_days := 1
      , session_timeout := 1, max_login_attempts := 3
      , password_min_length := 1, preauthorized := [] }
      3 (some 0) 600 = false := by
  decide

/-- C6 (amended): only the maximum consecutive-failure count is
configuration-driven — `check_rate_limit` is invariant under any
change of the other configuration fields, changing
`max_login_attempts` does change its behaviour, and once the counter
has reached the maximum the outcome is decided by the hardcoded
900-second window alone, whatever the configuration. -/
theorem C6_amended :
    (∀ (cfg cfg' : AuthConfig),
      cfg.max_login_attempts = cfg'.max_login_attempts →
      ∀ (k : Nat) (l : Option Nat) (now : Nat),
        check_rate_limit cfg k l now = check_rate_limit cfg' k l now) ∧
    (check_rate_limit { defaultAuthConfig with max_login_attempts := 3 }
        3 (some 0) 1 = false ∧
     check_rate_limit { defaultAuthConfig with max_login_attempts := 4 }
        3 (some 0) 1 = true) ∧
    (∀ (cfg : AuthConfig) (k t now : Nat),
      cfg.max_login_attempts ≤ k →
      (check_rate_limit cfg k (some t) now = true ↔ 900 ≤ now - t)) := by
  refine ⟨?_, ⟨by decide, by decide⟩, ?_⟩
  · intro cfg cfg' hmax k l now
    unfold check_rate_limit
    rw [hmax]
  · intro cfg k t now hk
    unfold check_rate_limit
    rw [if_pos hk]
    show (if now - t < 900 then false else true) = true ↔ 900 ≤ now - t
    constructor
    · intro h
      by_contra hw
      rw [if_pos (by omega)] at h
      cases h
    · intro h
      rw [if_neg (by omega)]

/-- C6 witness: the invariance and window statements at concrete
inputs. -/
theorem C6_witness :
    check_rate_limit defaultAuthConfig 3 (some 0) 600 =
      check_rate_limit
        { cookie_name := [], cookie_key := [], cookie_expiry_days := 1
        , session_timeout := 1, max_login_attempts := 3
        , password_min_length := 1, preauthorized := [] }
        3 (some 0) 600 ∧
    (check_rate_limit defaultAuthConfig 3 (some 0) 900 = true ↔
      (900 : Nat) ≤ 900 - 0) :=
  ⟨C6_amended.1 defaultAuthConfig
      { cookie_name := [], cookie_key := [], cookie_expiry_days := 1
      , session_timeout := 1, max_login_attempts := 3
      , password_min_length := 1, preauthorized := [] }
      rfl 3 (some 0) 600,
   C6_amended.2.2 defaultAuthConfig 3 0 900 (by decide)⟩

/-- A store whose lookup raised or matched nothing is skipped and the
search continues on the remaining tenants, recording the query. -/
theorem searchStores_cons_noMatch (stores : Tenant → Str → StoreResult)
    (username : Str) (t : Tenant) (ts : List Tenant)
    (h : (stores t username).noMatch) :
    searchStores stores username (t :: ts) =
      ((searchStores stores username ts).1,
       t :: (searchStores stores username ts).2) := by
  have hrow : storeFirstRow (stores t username) = none := by
    cases hr : stores t username with
    | err => rfl
    | rows rs =>
      cases rs with
      | nil => rfl
      | cons u us =>
        rw [hr] at h
        cases h
  simp only [searchStores, hrow]

/-- A store returning at least one row ends the search at that
tenant with its first row. -/
theorem searchStores_cons_found (stores : Tenant → Str → StoreResult)
    (username : Str) (t : Tenant) (ts : List Tenant) (u : User)
    (rest : List User) (h : stores t username = .rows (u :: rest)) :
    searchStores stores username (t :: ts) = (some (u, t), [t]) := by
  have hrow : storeFirstRow (stores t username) = some u := by
    rw [h]
    rfl
  simp only [searchStores, hrow]

/-- Initial segment of the fixed tenant order that `authenticate_user`
queries when the first (and only) match is at the given tenant. -/
def tenantsUpTo : Tenant → List Tenant
  | .lead => [.lead]
  | .cpa => [.lead, .cpa]
  | .prop => [.lead, .cpa, .prop]

/-- The search over the full tenant order, when exactly one store
matches, finds the first row of that store and queries exactly the tenants
up to it in the fixed order. -/
theorem searchStores_single_match (stores : Tenant → Str → StoreResult)
    (username : Str) (t0 : Tenant) (u : User) (rest : List User)
    (hfound : stores t0 username = .rows (u :: rest))
    (hothers : ∀ t, t ≠ t0 → (stores t username).noMatch) :
    searchStores stores username tenantOrder =
      (some (u, t0), tenantsUpTo t0) := by
  cases t0 with
  | lead =>
    exact searchStores_cons_found stores username .lead [.cpa, .prop]
      u rest hfound
  | cpa =>
    rw [show tenantOrder = Tenant.lead :: [Tenant.cpa, Tenant.prop] from rfl]
    rw [searchStores_cons_noMatch stores username .lead _
      (hothers .lead (by decide))]
    rw [searchStores_cons_found stores username .cpa [.prop] u rest hfound]
    rfl
  | prop =>
    rw [show tenantOrder = Tenant.lead :: [Tenant.cpa, Tenant.prop] from rfl]
    rw [searchStores_cons_noMatch stores username .lead _
      (hothers .lead (by decide))]
    rw [searchStores_cons_noMatch stores username .cpa _
      (hothers .cpa (by decide))]
    rw [searchStores_cons_found stores username .prop [] u rest hfound]
    rfl

/-- The search over the full tenant order, when no store matches,
finds nothing after querying all three tenants in order. -/
theorem searchStores_no_match (stores : Tenant → Str → StoreResult)
    (username : Str)
    (hall : ∀ t, (stores t username).noMatch) :
    searchStores stores username tenantOrder = (none, tenantOrder) := by
  rw [show tenantOrder = Tenant.lead :: [Tenant.cpa, Tenant.prop] from rfl]
  rw [searchStores_cons_noMatch stores username .lead _ (hall .lead)]
  rw [searchStores_cons_noMatch stores username .cpa _ (hall .cpa)]
  rw [searchStores_cons_noMatch stores username .prop _ (hall .prop)]
  rfl

/-- C4: when the limiter allows and the record for the
`(username, password)` pair lives in exactly one tenant store, `authenticate_user` queries
the stores in the fixed order lead, cpa, prop, stops at the matching
store, succeeds, resets the failure counter and stamps the session
with the tenant tag of that store; when the username matches no store, it
queries all three, increments the failure counter and fails with the
user-not-found message. -/
theorem C4_authenticate_tenant_order (cfg : AuthConfig)
    (stores : Tenant → Str → StoreResult) (sha : Str → Str)
    (bc : Str → Str → Bool) (username password : Str)
    (st : AuthState) (now : Nat)
    (hrl : check_rate_limit cfg st.login_attempts st.last_login_attempt now
      = true) :
    (∀ (t0 : Tenant) (u : User) (rest : List User),
      stores t0 username = .rows (u :: rest) →
      (∀ t, t ≠ t0 → (stores t username).noMatch) →
      verify_password sha bc password (u.password_hash.getD []) = true →
      authenticate_user cfg stores sha bc username password st now =
        ({ ok := true, msg := .welcome (u.first_name.getD username)
         , user := some u, queried := tenantsUpTo t0 },
         set_user_session (resetAttempts st) u t0 now)) ∧
    ((∀ t, (stores t username).noMatch) →
      authenticate_user cfg stores sha bc username password st now =
        ({ ok := false, msg := .userNotFound, user := none
         , queried := tenantOrder },
         incrementAttempts st now)) := by
  have hcond : ¬ ¬ (check_rate_limit cfg st.login_attempts
      st.last_login_attempt now = true) := by
    rw [hrl]
    exact fun h => h rfl
  constructor
  · intro t0 u rest hfound hothers hpw
    unfold authenticate_user
    rw [if_neg hcond]
    rw [searchStores_single_match stores username t0 u rest hfound hothers]
    simp only [hpw, if_pos]
  · intro hall
    unfold authenticate_user
    rw [if_neg hcond]
    rw [searchStores_no_match stores username hall]

/-- A concrete user row for exercising the authentication path. -/
def adaUser : User :=
  { id := some 1
  , username := ("ada".toList)
  , password_hash := some ("pw".toList)
  , email := none
  , first_name := some ("Ada".toList)
  , last_name := none
  , role := some ("admin".toList) }

/-- Stores holding `adaUser` in the cpa tenant only. -/
def adaStores : Tenant → Str → StoreResult :=
  fun t _ => if t = .cpa then .rows [adaUser] else .rows []

/-- C4 witness: a concrete user present only in the cpa store is
authenticated with the cpa tenant tag after querying lead then cpa;
a username absent everywhere is rejected after querying all three. -/
theorem C4_witness :
    (authenticate_user defaultAuthConfig adaStores
      (fun s => s) (fun _ _ => false) ("ada".toList) ("pw".toList)
      initAuthState 5 =
      ({ ok := true, msg := .welcome ("Ada".toList)
       , user := some adaUser, queried := [.lead, .cpa] },
       set_user_session (resetAttempts initAuthState) adaUser .cpa 5)) ∧
    (authenticate_user defaultAuthConfig (fun _ _ => .rows [])
      (fun s => s) (fun _ _ => false) ("ada".toList) ("pw".toList)
      initAuthState 5 =
      ({ ok := false, msg := .userNotFound, user := none
       , queried := tenantOrder },
       incrementAttempts initAuthState 5)) :=
  ⟨(C4_authenticate_tenant_order defaultAuthConfig adaStores
      (fun s => s) (fun _ _ => false) ("ada".toList) ("pw".toList)
      initAuthState 5 (by decide)).1 .cpa adaUser [] (by decide)
      (by intro t ht; cases t
          case lead => decide
          case cpa => exact absurd rfl ht
          case prop => decide)
      (by decide),
   (C4_authenticate_tenant_order defaultAuthConfig (fun _ _ => .rows [])
      (fun s => s) (fun _ _ => false) ("ada".toList) ("pw".toList)
      initAuthState 5 (by decide)).2 (fun t => by cases t <;> decide)⟩

/-- Stores that agree at a username except that one errs where the
other returns no rows drive the search identically. -/
theorem searchStores_congr (stores stores' : Tenant → Str → StoreResult)
    (username : Str)
    (h : ∀ t, stores t username = stores' t username ∨
      (stores t username = .err ∧ stores' t username = .rows [])) :
    ∀ ts, searchStores stores username ts =
      searchStores stores' username ts := by
  intro ts
  induction ts with
  | nil => rfl
  | cons t ts ih =>
    rcases h t with heq | ⟨he, hr⟩
    · simp only [searchStores, heq, ih]
    · rw [searchStores_cons_noMatch stores username t ts (by rw [he]; decide)]
      rw [searchStores_cons_noMatch stores' username t ts (by rw [hr]; decide)]
      rw [ih]

/-- C8: a raised store lookup is swallowed and treated exactly as "no
match in that store" — the search continues with the next tenant in
order, replacing an erring store by an empty one leaves the whole
`authenticate_user` outcome unchanged, and when every store raises the
call still resolves to the ordinary user-not-found failure (counter
incremented), not to a distinct system-error outcome. -/
theorem C8_store_errors_swallowed (cfg : AuthConfig)
    (stores stores' : Tenant → Str → StoreResult) (sha : Str → Str)
    (bc : Str → Str → Bool) (username password : Str)
    (st : AuthState) (now : Nat) :
    (∀ (t : Tenant) (ts : List Tenant), stores t username = .err →
      searchStores stores username (t :: ts) =
        ((searchStores stores username ts).1,
         t :: (searchStores stores username ts).2)) ∧
    ((∀ t, stores t username = stores' t username ∨
        (stores t username = .err ∧ stores' t username = .rows [])) →
      authenticate_user cfg stores sha bc username password st now =
        authenticate_user cfg stores' sha bc username password st now) ∧
    ((∀ t, stores t username = .err) →
      check_rate_limit cfg st.login_attempts st.last_login_attempt now
        = true →
      authenticate_user cfg stores sha bc username password st now =
        ({ ok := false, msg := .userNotFound, user := none
         , queried := tenantOrder },
         incrementAttempts st now)) := by
  refine ⟨?_, ?_, ?_⟩
  · intro t ts he
    exact searchStores_cons_noMatch stores username t ts (by rw [he]; decide)
  · intro h
    unfold authenticate_user
    rw [searchStores_congr stores stores' username h tenantOrder]
  · intro hall hrl
    have hcond : ¬ ¬ (check_rate_limit cfg st.login_attempts
        st.last_login_attempt now = true) := by
      rw [hrl]
      exact fun h => h rfl
    unfold authenticate_user
    rw [if_neg hcond]
    rw [searchStores_no_match stores username
      (fun t => by rw [hall t]; decide)]

/-- C8 witness: stores that all raise behave exactly like stores that
all return empty row sets, and resolve to the plain user-not-found
outcome. -/
theorem C8_witness :
    (searchStores (fun _ _ => .err) ("u".toList) (Tenant.lead :: [.cpa]) =
      ((searchStores (fun _ _ => .err) ("u".toList) [.cpa]).1,
       Tenant.lead ::
         (searchStores (fun _ _ => .err) ("u".toList) [.cpa]).2)) ∧
    (authenticate_user defaultAuthConfig (fun _ _ => .err)
      (fun s => s) (fun _ _ => false) ("u".toList) ("p".toList)
      initAuthState 5 =
     authenticate_user defaultAuthConfig (fun _ _ => .rows [])
      (fun s => s) (fun _ _ => false) ("u".toList) ("p".toList)
      initAuthState 5) ∧
    (authenticate_user defaultAuthConfig (fun _ _ => .err)
      (fun s => s) (fun _ _ => false) ("u".toList) ("p".toList)
      initAuthState 5 =
      ({ ok := false, msg := .userNotFound, user := none
       , queried := tenantOrder },
       incrementAttempts initAuthState 5)) :=
  ⟨(C8_store_errors_swallowed defaultAuthConfig (fun _ _ => .err)
      (fun _ _ => .rows []) (fun s => s) (fun _ _ => false)
      ("u".toList) ("p".toList) initAuthState 5).1 .lead [.cpa] rfl,
   (C8_store_errors_swallowed defaultAuthConfig (fun _ _ => .err)
      (fun _ _ => .rows []) (fun s => s) (fun _ _ => false)
      ("u".toList) ("p".toList) initAuthState 5).2.1
      (fun _ => Or.inr ⟨rfl, rfl⟩),
   (C8_store_errors_swallowed defaultAuthConfig (fun _ _ => .err)
      (fun _ _ => .rows []) (fun s => s) (fun _ _ => false)
      ("u".toList) ("p".toList) initAuthState 5).2.2
      (fun _ => rfl) (by decide)⟩

/-- Storing under a key makes the lookup of that key return the stored
value. -/
theorem cacheGet_cacheSet (c : Cache) (k : Str × Int) (v : Nat × Str) :
    cacheGet (cacheSet c k v) k = some v := by
  unfold cacheGet cacheSet
  rw [if_pos rfl]

/-- C5: a fresh cache entry (younger than the 300-second window) is
served without touching the network; two identical calls within the
window perform exactly one network request (the first), the second
returning the text of the first from the unchanged cache; once the window
has elapsed the next identical call issues a new network request. -/
theorem C5_inference_cache (hashF : List Message → Int)
    (messages : List Message) (project_type : Str) :
    (∀ (cache : Cache) (net : Option Str) (t now : Nat) (resp : Str),
      cacheGet cache (cacheKey hashF project_type messages)
        = some (t, resp) →
      now - t < 300 →
      make_api_call hashF net cache messages project_type now =
        { response := some resp, cache := cache
        , networkCalled := false }) ∧
    (∀ (cache0 : Cache) (net2 : Option Str) (text : Str) (t1 t2 : Nat),
      cacheGet cache0 (cacheKey hashF project_type messages) = none →
      t2 - t1 < 300 →
      (make_api_call hashF (some text) cache0 messages
        project_type t1).networkCalled = true ∧
      make_api_call hashF net2
        (make_api_call hashF (some text) cache0 messages
          project_type t1).cache messages project_type t2 =
        { response := some text
        , cache := (make_api_call hashF (some text) cache0 messages
            project_type t1).cache
        , networkCalled := false }) ∧
    (∀ (cache0 : Cache) (net3 : Option Str) (text : Str) (t1 t3 : Nat),
      cacheGet cache0 (cacheKey hashF project_type messages) = none →
      300 ≤ t3 - t1 →
      (make_api_call hashF net3
        (make_api_call hashF (some text) cache0 messages
          project_type t1).cache messages project_type t3).networkCalled
        = true) := by
  refine ⟨?_, ?_, ?_⟩
  · intro cache net t now resp hget hfresh
    simp only [make_api_call, hget, if_pos hfresh]
  · intro cache0 net2 text t1 t2 hmiss hfresh
    have h1 : make_api_call hashF (some text) cache0 messages
        project_type t1 =
        { response := some text
        , cache := cacheSet cache0 (cacheKey hashF project_type messages)
            (t1, text)
        , networkCalled := true } := by
      simp only [make_api_call, hmiss]
    refine ⟨by rw [h1], ?_⟩
    rw [h1]
    simp only [make_api_call, cacheGet_cacheSet, if_pos hfresh]
  · intro cache0 net3 text t1 t3 hmiss hstale
    have h1 : make_api_call hashF (some text) cache0 messages
        project_type t1 =
        { response := some text
        , cache := cacheSet cache0 (cacheKey hashF project_type messages)
            (t1, text)
        , networkCalled := true } := by
      simp only [make_api_call, hmiss]
    rw [h1]
    simp only [make_api_call, cacheGet_cacheSet,
      if_neg (by omega : ¬ t3 - t1 < 300)]
    cases net3 with
    | some text3 => rfl
    | none => rfl

/-- C5 witness: an empty cache, a first successful call at time 0, a
second identical call at time 100 served from cache, and a third at
time 400 hitting the network again. -/
theorem C5_witness :
    ((make_api_call (fun _ => 0) (some ("hi".toList)) (fun _ => none)
        [] ("lead".toList) 0).networkCalled = true ∧
      make_api_call (fun _ => 0) none
        (make_api_call (fun _ => 0) (some ("hi".toList)) (fun _ => none)
          [] ("lead".toList) 0).cache [] ("lead".toList) 100 =
        { response := some ("hi".toList)
        , cache := (make_api_call (fun _ => 0) (some ("hi".toList))
            (fun _ => none) [] ("lead".toList) 0).cache
        , networkCalled := false }) ∧
    (make_api_call (fun _ => 0) none
      (make_api_call (fun _ => 0) (some ("hi".toList)) (fun _ => none)
        [] ("lead".toList) 0).cache [] ("lead".toList) 400).networkCalled
      = true :=
  ⟨(C5_inference_cache (fun _ => 0) [] ("lead".toList)).2.1
      (fun _ => none) none ("hi".toList) 0 100 rfl (by decide),
   (C5_inference_cache (fun _ => 0) [] ("lead".toList)).2.2
      (fun _ => none) none ("hi".toList) 0 400 rfl (by decide)⟩

/-- C2: with the inference call absent, each domain caller returns its
fixed fallback object, which carries the locally precomputed summary
under the summary key of the caller and a non-empty recommendation list,
and is never the empty object (the Lean functions are total, so no
exception path exists). -/
theorem C2_fallback_objects (parse : Str → ParseRes) (summary : JVal)
    (ts : Str) :
    (getKey (analyze_lead_data parse none summary ts)
        ("data_summary".toList) = some summary ∧
      (∃ recs, getKey (analyze_lead_data parse none summary ts)
          ("recommendations".toList) = some (.arr recs) ∧ recs ≠ []) ∧
      analyze_lead_data parse none summary ts ≠ []) ∧
    (getKey (calculate_cpa_metrics parse none summary ts)
        ("basic_metrics".toList) = some summary ∧
      (∃ recs, getKey (calculate_cpa_metrics parse none summary ts)
          ("recommendations".toList) = some (.arr recs) ∧ recs ≠ []) ∧
      calculate_cpa_metrics parse none summary ts ≠ []) ∧
    (getKey (analyze_broker_performance parse none summary ts)
        ("basic_analysis".toList) = some summary ∧
      (∃ recs, getKey (analyze_broker_performance parse none summary ts)
          ("recommendations".toList) = some (.arr recs) ∧ recs ≠ []) ∧
      analyze_broker_performance parse none summary ts ≠ []) := by
  refine ⟨⟨rfl, ⟨_, rfl, ?_⟩, fun h => List.noConfusion h⟩,
    ⟨rfl, ⟨_, rfl, ?_⟩, fun h => List.noConfusion h⟩,
    ⟨rfl, ⟨_, rfl, ?_⟩, fun h => List.noConfusion h⟩⟩ <;>
    exact fun h => List.noConfusion h

/-- C7 counterexample: the claim says every domain caller wraps an
unparsable response under an "analysis" field, but the cpa caller
(like the broker caller) has no "analysis" key at all in that case —
it uses "advanced_analysis". -/
theorem C7_counterexample :
    getKey (calculate_cpa_metrics (fun _ => .failure)
      (some ("not json".toList)) .null ("t".toList)) ("analysis".toList)
      = none := rfl

/-- C7 (amended): when the response text fails to parse as JSON, each
caller keeps the raw text in its result — the lead caller under
"analysis", the cpa and broker callers under "advanced_analysis" —
together with the locally computed summary. -/
theorem C7_raw_text_kept (parse : Str → ParseRes) (resp : Str)
    (summary : JVal) (ts : Str) (h : parse resp = .failure) :
    (getKey (analyze_lead_data parse (some resp) summary ts)
        ("analysis".toList) = some (.str resp) ∧
      getKey (analyze_lead_data parse (some resp) summary ts)
        ("data_summary".toList) = some summary) ∧
    (getKey (calculate_cpa_metrics parse (some resp) summary ts)
        ("advanced_analysis".toList) = some (.str resp) ∧
      getKey (calculate_cpa_metrics parse (some resp) summary ts)
        ("basic_metrics".toList) = some summary) ∧
    (getKey (analyze_broker_performance parse (some resp) summary ts)
        ("advanced_analysis".toList) = some (.str resp) ∧
      getKey (analyze_broker_performance parse (some resp) summary ts)
        ("basic_analysis".toList) = some summary) := by
  simp only [analyze_lead_data, calculate_cpa_metrics,
    analyze_broker_performance, postProcess, h]
  exact ⟨⟨rfl, rfl⟩, ⟨rfl, rfl⟩, ⟨rfl, rfl⟩⟩

/-- C7 witness: a concrete unparsable response. -/
theorem C7_witness :
    getKey (analyze_lead_data (fun _ => .failure) (some ("raw".toList))
        .null ("t".toList)) ("analysis".toList) = some (.str ("raw".toList)) ∧
    getKey (calculate_cpa_metrics (fun _ => .failure) (some ("raw".toList))
        .null ("t".toList)) ("advanced_analysis".toList)
      = some (.str ("raw".toList)) :=
  ⟨(C7_raw_text_kept (fun _ => .failure) ("raw".toList) .null ("t".toList)
      rfl).1.1,
   (C7_raw_text_kept (fun _ => .failure) ("raw".toList) .null ("t".toList)
      rfl).2.1.1⟩

/-- Scenario frame of the spec: 100 rows with a `stato` column, exactly
37 of them equal to "converted". -/
def leadFrame100 : DataFrame :=
  { cols := [("stato".toList)]
  , rows := List.replicate 37 [(("stato".toList), ("converted".toList))]
      ++ List.replicate 63 [(("stato".toList), ("lost".toList))] }

/-- The statistic on a non-empty frame with a `stato` column is the
converted-row share times 100. -/
theorem conversion_rate_eq (df : DataFrame)
    (hcol : ("stato".toList) ∈ df.cols) (hne : df.rows ≠ []) :
    calculate_conversion_rate df =
      ((df.rows.filter (fun r =>
        rowGet r ("stato".toList) = some ("converted".toList))).length : ℚ)
        / (df.rows.length : ℚ) * 100 := by
  unfold calculate_conversion_rate
  rw [if_pos hcol, if_pos (List.length_pos.mpr hne)]

/-- C9: the conversion-rate statistic is exactly 37 on the 100-row /
37-conversion scenario frame; in general it is (converted rows) /
(total rows) * 100 for a non-empty frame with a `stato` column, and 0
for an empty frame or a frame without that column. -/
theorem C9_conversion_rate :
    calculate_conversion_rate leadFrame100 = 37 ∧
    (∀ df : DataFrame, ("stato".toList) ∈ df.cols → df.rows ≠ [] →
      calculate_conversion_rate df =
        ((df.rows.filter (fun r =>
          rowGet r ("stato".toList) = some ("converted".toList))).length : ℚ)
          / (df.rows.length : ℚ) * 100) ∧
    (∀ df : DataFrame, df.rows = [] →
      calculate_conversion_rate df = 0) ∧
    (∀ df : DataFrame, ("stato".toList) ∉ df.cols →
      calculate_conversion_rate df = 0) := by
  refine ⟨?_, ?_, ?_, ?_⟩
  · rw [conversion_rate_eq leadFrame100 (by decide)
      (fun h => List.noConfusion h)]
    have hcount : (leadFrame100.rows.filter (fun r =>
        rowGet r ("stato".toList) = some ("converted".toList))).length
        = 37 := by decide
    have htotal : leadFrame100.rows.length = 100 := by decide
    rw [hcount, htotal]
    norm_num
  · intro df hcol hne
    exact conversion_rate_eq df hcol hne
  · intro df hempty
    unfold calculate_conversion_rate
    rw [hempty]
    simp
  · intro df hcol
    unfold calculate_conversion_rate
    rw [if_neg hcol]

/-- C9 witness: the general formula applied to the scenario frame. -/
theorem C9_witness :
    calculate_conversion_rate leadFrame100 =
      ((leadFrame100.rows.filter (fun r =>
        rowGet r ("stato".toList) = some ("converted".toList))).length : ℚ)
        / (leadFrame100.rows.length : ℚ) * 100 :=
  C9_conversion_rate.2.1 leadFrame100 (by decide)
    (fun h => List.noConfusion h)

end Dash
